import Mathlib

/-!
Verification of `homework_bot` (src/homework.py) against its specification.

The Python program polls a review-status API, validates the response,
interprets the newest homework record into a message, deduplicates against
the last dispatched report and sends a Telegram notification.

We shallowly embed the pure content of each function:
* Python/JSON values become `PyVal` (dict equality is modelled structurally,
  with a fixed key order; all concrete values used in this development keep
  one fixed key order, so structural equality coincides with Python `==`);
* raised exceptions become `Except PyError`;
* the body of `main`'s infinite `while True` loop becomes the `step`
  function on `BotState`, taking the cycle's fetch outcome and the result
  of `send_message` as explicit inputs;
* network transport and the Telegram channel are external collaborators
  and enter as explicit parameters.
-/

/-- Python single-quote character, used by `repr` of strings. -/
def singleQuote : String := String.singleton (Char.ofNat 39)

/-- Shallow embedding of the Python/JSON values the program manipulates. -/
inductive PyVal where
  | none : PyVal
  | bool : Bool → PyVal
  | int : Int → PyVal
  | str : String → PyVal
  | list : List PyVal → PyVal
  | dict : List (String × PyVal) → PyVal

mutual
/-- Decidable equality on `PyVal` (hand-written: the nested inductive does
not support deriving here). -/
def PyVal.decEq : (a b : PyVal) → Decidable (a = b)
  | .none, .none => isTrue rfl
  | .none, .bool _ => isFalse (fun h => PyVal.noConfusion h)
  | .none, .int _ => isFalse (fun h => PyVal.noConfusion h)
  | .none, .str _ => isFalse (fun h => PyVal.noConfusion h)
  | .none, .list _ => isFalse (fun h => PyVal.noConfusion h)
  | .none, .dict _ => isFalse (fun h => PyVal.noConfusion h)
  | .bool _, .none => isFalse (fun h => PyVal.noConfusion h)
  | .bool a, .bool b =>
      if h : a = b then isTrue (h ▸ rfl)
      else isFalse (fun hh => h (PyVal.bool.inj hh))
  | .bool _, .int _ => isFalse (fun h => PyVal.noConfusion h)
  | .bool _, .str _ => isFalse (fun h => PyVal.noConfusion h)
  | .bool _, .list _ => isFalse (fun h => PyVal.noConfusion h)
  | .bool _, .dict _ => isFalse (fun h => PyVal.noConfusion h)
  | .int _, .none => isFalse (fun h => PyVal.noConfusion h)
  | .int _, .bool _ => isFalse (fun h => PyVal.noConfusion h)
  | .int a, .int b =>
      if h : a = b then isTrue (h ▸ rfl)
      else isFalse (fun hh => h (PyVal.int.inj hh))
  | .int _, .str _ => isFalse (fun h => PyVal.noConfusion h)
  | .int _, .list _ => isFalse (fun h => PyVal.noConfusion h)
  | .int _, .dict _ => isFalse (fun h => PyVal.noConfusion h)
  | .str _, .none => isFalse (fun h => PyVal.noConfusion h)
  | .str _, .bool _ => isFalse (fun h => PyVal.noConfusion h)
  | .str _, .int _ => isFalse (fun h => PyVal.noConfusion h)
  | .str a, .str b =>
      if h : a = b then isTrue (h ▸ rfl)
      else isFalse (fun hh => h (PyVal.str.inj hh))
  | .str _, .list _ => isFalse (fun h => PyVal.noConfusion h)
  | .str _, .dict _ => isFalse (fun h => PyVal.noConfusion h)
  | .list _, .none => isFalse (fun h => PyVal.noConfusion h)
  | .list _, .bool _ => isFalse (fun h => PyVal.noConfusion h)
  | .list _, .int _ => isFalse (fun h => PyVal.noConfusion h)
  | .list _, .str _ => isFalse (fun h => PyVal.noConfusion h)
  | .list xs, .list ys =>
      match PyVal.decEqList xs ys with
      | isTrue h => isTrue (h ▸ rfl)
      | isFalse h => isFalse (fun hh => h (PyVal.list.inj hh))
  | .list _, .dict _ => isFalse (fun h => PyVal.noConfusion h)
  | .dict _, .none => isFalse (fun h => PyVal.noConfusion h)
  | .dict _, .bool _ => isFalse (fun h => PyVal.noConfusion h)
  | .dict _, .int _ => isFalse (fun h => PyVal.noConfusion h)
  | .dict _, .str _ => isFalse (fun h => PyVal.noConfusion h)
  | .dict _, .list _ => isFalse (fun h => PyVal.noConfusion h)
  | .dict xs, .dict ys =>
      match PyVal.decEqDict xs ys with
      | isTrue h => isTrue (h ▸ rfl)
      | isFalse h => isFalse (fun hh => h (PyVal.dict.inj hh))

/-- Decidable equality on lists of `PyVal`. -/
def PyVal.decEqList : (xs ys : List PyVal) → Decidable (xs = ys)
  | [], [] => isTrue rfl
  | [], _ :: _ => isFalse (fun h => List.noConfusion h)
  | _ :: _, [] => isFalse (fun h => List.noConfusion h)
  | x :: xs, y :: ys =>
      match PyVal.decEq x y with
      | isFalse h => isFalse (fun hh => h (List.head_eq_of_cons_eq hh))
      | isTrue h1 =>
        match PyVal.decEqList xs ys with
        | isTrue h2 => isTrue (by rw [h1, h2])
        | isFalse h2 => isFalse (fun hh => h2 (List.tail_eq_of_cons_eq hh))

/-- Decidable equality on dict entry lists. -/
def PyVal.decEqDict : (xs ys : List (String × PyVal)) → Decidable (xs = ys)
  | [], [] => isTrue rfl
  | [], _ :: _ => isFalse (fun h => List.noConfusion h)
  | _ :: _, [] => isFalse (fun h => List.noConfusion h)
  | (k1, v1) :: xs, (k2, v2) :: ys =>
      if hk : k1 = k2 then
        match PyVal.decEq v1 v2 with
        | isFalse h =>
            isFalse (fun hh => h (congrArg Prod.snd
              (List.head_eq_of_cons_eq hh)))
        | isTrue h1 =>
          match PyVal.decEqDict xs ys with
          | isTrue h2 => isTrue (by rw [hk, h1, h2])
          | isFalse h2 => isFalse (fun hh => h2 (List.tail_eq_of_cons_eq hh))
      else
        isFalse (fun hh => hk (congrArg Prod.fst (List.head_eq_of_cons_eq hh)))
end

instance : DecidableEq PyVal := PyVal.decEq

deriving instance DecidableEq for Except

/-- First-match lookup in an association list, modelling Python dict access
(keys of a Python dict are unique, so first match is the match). -/
def lookupKey : List (String × PyVal) → String → Option PyVal
  | [], _ => Option.none
  | (k, v) :: rest, key => if k = key then Option.some v else lookupKey rest key

/-- Python `k in d` membership test on a dict. `False` on non-dicts is
unreachable at the call sites we model (guarded by `isinstance` checks). -/
def PyVal.hasKey : PyVal → String → Bool
  | .dict kvs, k => (lookupKey kvs k).isSome
  | _, _ => false

/-- Python `d.get(k)`: the value when the key is present, `None` otherwise.
Only applied to dicts in the modelled code paths. -/
def PyVal.pyGet : PyVal → String → PyVal
  | .dict kvs, k => (lookupKey kvs k).getD PyVal.none
  | _, _ => PyVal.none

/-- Python `isinstance(v, dict)`. -/
def PyVal.isDict : PyVal → Bool
  | .dict _ => true
  | _ => false

/-- Python `isinstance(v, list)`. -/
def PyVal.isList : PyVal → Bool
  | .list _ => true
  | _ => false

mutual
/-- Python `repr()` on embedded values. -/
def pyRepr : PyVal → String
  | .none => "None"
  | .bool true => "True"
  | .bool false => "False"
  | .int n => toString n
  | .str s => singleQuote ++ s ++ singleQuote
  | .list xs => "[" ++ pyReprList xs ++ "]"
  | .dict kvs => "\x7b" ++ pyReprDict kvs ++ "\x7d"

/-- Comma-separated `repr`s of the elements of a list. -/
def pyReprList : List PyVal → String
  | [] => ""
  | [x] => pyRepr x
  | x :: y :: rest => pyRepr x ++ ", " ++ pyReprList (y :: rest)

/-- Comma-separated `'key': repr(value)` pairs of a dict. -/
def pyReprDict : List (String × PyVal) → String
  | [] => ""
  | [(k, v)] => singleQuote ++ k ++ singleQuote ++ ": " ++ pyRepr v
  | (k, v) :: p :: rest =>
      singleQuote ++ k ++ singleQuote ++ ": " ++ pyRepr v ++ ", " ++
        pyReprDict (p :: rest)
end

/-- Python `str()`: identity on strings, `repr` on containers. -/
def pyStr : PyVal → String
  | .str s => s
  | v => pyRepr v

/-- Modelled from the spec: `exceptions.py` is imported by `homework.py`
but absent from the sources; the spec's error taxonomy (§7) presents
FormatError (`ResponseFormatFailure`), UnknownStatusError
(`WrongStatusInResponse`), EndpointError (`EndpointFailureResponseCodes`),
ConfigError (`InvalidTokens`) as distinct recoverable kinds, so the classes
are modelled as unrelated direct `Exception` subclasses, each carrying its
message. `typeError`, `connectionError` and `attributeError` are Python
builtins raised (or raisable) by `homework.py` itself. -/
inductive PyError where
  | typeError (msg : String)
  | responseFormatFailure (msg : String)
  | wrongStatusInResponse (msg : String)
  | endpointFailure (msg : String)
  | connectionError (msg : String)
  | invalidTokens (msg : String)
  | attributeError (msg : String)
deriving DecidableEq

/-- Python `str(exception)`: the message the exception was built with. -/
def PyError.message : PyError → String
  | .typeError m => m
  | .responseFormatFailure m => m
  | .wrongStatusInResponse m => m
  | .endpointFailure m => m
  | .connectionError m => m
  | .invalidTokens m => m
  | .attributeError m => m

/-- The `HOMEWORK_VERDICTS` constant of homework.py. -/
def HOMEWORK_VERDICTS : List (String × String) :=
  [("approved", "Работа проверена: ревьюеру всё понравилось. Ура!"),
   ("reviewing", "Работа взята на проверку ревьюером."),
   ("rejected", "Работа проверена: у ревьюера есть замечания.")]

/-- The `ENDPOINT` constant of homework.py. -/
def ENDPOINT : String :=
  "https://practicum.yandex.ru/api/user_api/homework_statuses/"

/-- First-match lookup in the verdict table (Python dict indexing /
membership on `HOMEWORK_VERDICTS`). -/
def lookupVerdict : List (String × String) → String → Option String
  | [], _ => Option.none
  | (k, v) :: rest, key => if k = key then Option.some v else lookupVerdict rest key

/-- Python `status in HOMEWORK_VERDICTS` combined with the later
`HOMEWORK_VERDICTS[status]` indexing: a (possibly non-string) value is a
member exactly when it is a string equal to one of the keys, in which case
the verdict text is returned. -/
def verdictOf : PyVal → Option String
  | .str s => lookupVerdict HOMEWORK_VERDICTS s
  | _ => Option.none

/-- `check_response` of homework.py: top level must be a dict, the keys
`homeworks` and `current_date` must both be present (checked in that
order, with distinct messages), the `homeworks` value must be a list;
returns the homeworks list. -/
def check_response (response : PyVal) : Except PyError (List PyVal) :=
  if ¬ response.isDict then
    .error (.typeError "Response data format is not dictionary")
  else if ¬ response.hasKey "homeworks" then
    .error (.responseFormatFailure "Please check homeworks existence in response")
  else if ¬ response.hasKey "current_date" then
    .error (.responseFormatFailure "Please check current_date existence in response")
  else
    match response.pyGet "homeworks" with
    | .list homeworks => .ok homeworks
    | _ => .error (.typeError "Response data format is not list")

/-- The error message `parse_status` formats for an out-of-table status. -/
def wrongStatusMsg (status : PyVal) : String :=
  "Please validate status - \"" ++ pyStr status ++
    "\" in response is based on yandex documentation"

/-- The success message `parse_status` formats. -/
def statusChangedMsg (nameVal : PyVal) (verdict : String) : String :=
  "Изменился статус проверки работы \"" ++ pyStr nameVal ++ "\". " ++ verdict

/-- `parse_status` of homework.py: reads `homework.get('status')`, fails
with `WrongStatusInResponse` when it is not a verdict-table key, then fails
with `ResponseFormatFailure` when `homework_name` is absent, otherwise
formats the status-changed message. A non-dict argument would make
`homework.get` raise `AttributeError`. -/
def parse_status (homework : PyVal) : Except PyError String :=
  match homework with
  | .dict kvs =>
    let status := (lookupKey kvs "status").getD PyVal.none
    match verdictOf status with
    | Option.none => .error (.wrongStatusInResponse (wrongStatusMsg status))
    | Option.some verdict =>
      match lookupKey kvs "homework_name" with
      | Option.none =>
          .error (.responseFormatFailure
            "Please validate homework_name exist in response")
      | Option.some nameVal => .ok (statusChangedMsg nameVal verdict)
  | other =>
      .error (.attributeError
        (pyRepr other ++ " object has no attribute get"))

/-- One HTTP response as seen by `get_api_answer`: status code, reason
phrase, raw body text, and the JSON-decoded body. -/
structure HttpResponse where
  status_code : Nat
  reason : String
  text : String
  json : PyVal
deriving DecidableEq

/-- `http.HTTPStatus.OK`. -/
def HTTPStatus_OK : Nat := 200

/-- The `HEADERS` constant, built from the `PRACTICUM_TOKEN` configuration
value. -/
def HEADERS (token : String) : PyVal :=
  .dict [("Authorization", .str ("OAuth " ++ token))]

/-- The message of the `ConnectionError` that `get_api_answer` raises on a
transport failure (the `'...'.format(**url_params)` string). -/
def connectionErrorMsg (token : String) (timestamp : PyVal) : String :=
  "Ошибка соединения при попыткы запроса статуса домашней работы: " ++
    "URL = " ++ ENDPOINT ++ ", " ++
    "HEADERS = " ++ pyStr (HEADERS token) ++ ", " ++
    "PAYLOAD = " ++ pyStr (.dict [("from_date", timestamp)]) ++ ", "

/-- The message of the `EndpointFailureResponseCodes` error raised on a
non-OK HTTP status. -/
def endpointFailureMsg (r : HttpResponse) : String :=
  "Please check why API response failed = " ++
    "status_code:" ++ toString r.status_code ++ ", " ++
    "reason:" ++ r.reason ++ ", " ++
    "text: " ++ r.text

/-- `get_api_answer` of homework.py. The transport outcome of
`requests.get` is an explicit input: `.error e` models a raised
`requests.RequestException` (carrying its text), `.ok r` a received HTTP
response. A non-OK status raises `EndpointFailureResponseCodes` (not a
`RequestException`, so it propagates past the `except` clause); a transport
failure is logged and re-raised as `ConnectionError`; otherwise the decoded
JSON body is returned. -/
def get_api_answer (token : String) (timestamp : PyVal)
    (transport : Except String HttpResponse) : Except PyError PyVal :=
  match transport with
  | .error _ => .error (.connectionError (connectionErrorMsg token timestamp))
  | .ok r =>
    if r.status_code ≠ HTTPStatus_OK then
      .error (.endpointFailure (endpointFailureMsg r))
    else
      .ok r.json

/-- The mutable report dict of `main` — a Python dict with the fixed keys
`homework_name` and `message_output`; Python `==`/`!=` on two such dicts is
field-wise equality. -/
structure Report where
  homework_name : PyVal
  message_output : String
deriving DecidableEq

/-- The loop-carried state of `main`: the poll cursor `timestamp` and the
two report dicts (`current_report` is mutated in place, so it persists
across cycles too). -/
structure BotState where
  timestamp : PyVal
  current_report : Report
  prev_report : Report
deriving DecidableEq

/-- The state `main` enters the loop with. -/
def initState : BotState :=
  { timestamp := .int 0,
    current_report := { homework_name := .str "", message_output := "" },
    prev_report := { homework_name := .str "", message_output := "" } }

/-- The fixed no-updates sentinel message. -/
def noUpdatesMsg : String := "Обновлений нет"

/-- The error-report message `main` builds in its generic `except` clause. -/
def cycleFailureMsg (e : PyError) : String :=
  "Сбой в работе программы: " ++ e.message

/-- The generic `except Exception` clause of `main`: builds the error
message, overwrites `current_report['message_output']` (on top of the
report as already mutated this cycle, `cr`), and runs the same
compare-and-dispatch tail as the success path but without touching the
cursor. The returned `Option String` is `some m` exactly when
`send_message` was invoked (with message `m`); `sendOk` is its result. -/
def handleGenericError (st : BotState) (cr : Report) (e : PyError)
    (sendOk : Bool) : BotState × Option String :=
  let m := cycleFailureMsg e
  let cr2 : Report := { cr with message_output := m }
  if cr2 = st.prev_report then
    ({ st with current_report := cr2 }, Option.none)
  else if sendOk then
    ({ st with current_report := cr2, prev_report := cr2 }, Option.some m)
  else
    ({ st with current_report := cr2 }, Option.some m)

/-- Whether an exception is an instance of `ResponseFormatFailure` (the
class matched by the first `except` clause of `main`). -/
def PyError.isFormatFailure : PyError → Bool
  | .responseFormatFailure _ => true
  | _ => false

/-- The `except` ladder of `main`: `ResponseFormatFailure` (from wherever
it was raised) is only logged — no dispatch, no state change beyond the
mutations `cr` already applied to `current_report`; every other exception
goes to the generic handler. -/
def handleError (st : BotState) (cr : Report) (e : PyError)
    (sendOk : Bool) : BotState × Option String :=
  if e.isFormatFailure then ({ st with current_report := cr }, Option.none)
  else handleGenericError st cr e sendOk

/-- The compare-and-dispatch tail of the success path of `main`: dispatch
iff the computed report differs from `prev_report`; on dispatch success,
replace `prev_report` and advance the cursor to the response's
`current_date`. -/
def dispatchTailSuccess (st : BotState) (response : PyVal) (cr : Report)
    (sendOk : Bool) : BotState × Option String :=
  if cr = st.prev_report then
    ({ st with current_report := cr }, Option.none)
  else if sendOk then
    ({ timestamp := response.pyGet "current_date",
       current_report := cr, prev_report := cr },
     Option.some cr.message_output)
  else
    ({ st with current_report := cr }, Option.some cr.message_output)

/-- One iteration of `main`'s `while True` loop. `fetchRes` is the outcome
of `get_api_answer(timestamp)` for this cycle, `sendOk` the result
`send_message` would return if invoked. The second component records the
message `send_message` was invoked with, if it was. Mirrors the source:
`current_report['homework_name']` is assigned the whole validated list
before `parse_status` can raise, so that mutation survives into the error
handlers. -/
def step (st : BotState) (fetchRes : Except PyError PyVal) (sendOk : Bool) :
    BotState × Option String :=
  match fetchRes with
  | .error e => handleError st st.current_report e sendOk
  | .ok response =>
    match check_response response with
    | .error e => handleError st st.current_report e sendOk
    | .ok homeworks =>
      let cr1 : Report :=
        { st.current_report with homework_name := PyVal.list homeworks }
      match homeworks with
      | [] =>
          dispatchTailSuccess st response
            { cr1 with message_output := noUpdatesMsg } sendOk
      | hw :: _ =>
        match parse_status hw with
        | .error e => handleError st cr1 e sendOk
        | .ok msg =>
            dispatchTailSuccess st response
              { cr1 with message_output := msg } sendOk

/-- Run `n` consecutive loop iterations with the same fetch outcome and the
same `send_message` result each cycle, collecting every message the
dispatcher is invoked with, in order. -/
def runSame (f : Except PyError PyVal) (sendOk : Bool) :
    Nat → BotState → BotState × List String
  | 0, st => (st, [])
  | n + 1, st =>
    let r := step st f sendOk
    let rest := runSame f sendOk n r.1
    (rest.1, r.2.toList ++ rest.2)

/-! ### Helper lemmas -/

/-- A dict-key membership test succeeding forces the value to be a dict. -/
theorem hasKey_isDict (v : PyVal) (k : String) (h : v.hasKey k = true) :
    v.isDict = true := by
  cases v <;> simp [PyVal.hasKey, PyVal.isDict] at h ⊢

/-- Unfolding of the generic error handler into its three outcomes. -/
theorem handleGenericError_eq (st : BotState) (cr : Report) (e : PyError)
    (sendOk : Bool) :
    handleGenericError st cr e sendOk =
      if { cr with message_output := cycleFailureMsg e } = st.prev_report then
        ({ st with
            current_report := { cr with message_output := cycleFailureMsg e } },
         Option.none)
      else if sendOk then
        ({ st with
            current_report := { cr with message_output := cycleFailureMsg e },
            prev_report := { cr with message_output := cycleFailureMsg e } },
         Option.some (cycleFailureMsg e))
      else
        ({ st with
            current_report := { cr with message_output := cycleFailureMsg e } },
         Option.some (cycleFailureMsg e)) := rfl

/-! ### C5 — check_response characterization -/

/-- Claim C5, counterexample: `check_response` does not return the
next-cursor value — two responses that differ only in `current_date`
produce identical outputs, so the output cannot carry the cursor. -/
theorem check_response_cursor_counterexample :
    check_response (.dict [("homeworks", .list []), ("current_date", .int 1000)]) =
      check_response (.dict [("homeworks", .list []), ("current_date", .int 2000)]) ∧
    PyVal.pyGet (.dict [("homeworks", .list []), ("current_date", .int 1000)])
        "current_date" ≠
      PyVal.pyGet (.dict [("homeworks", .list []), ("current_date", .int 2000)])
        "current_date" := by
  constructor
  · rfl
  · decide

/-- Claim C5 (amended): `check_response` raises TypeError when the value is
not a dict, a distinct FormatError for a missing `homeworks` key and for a
missing `current_date` key, TypeError when the `homeworks` value is not a
list, and otherwise returns the (possibly empty) homeworks sequence only —
the next-cursor value is not part of the return value (the orchestrator
reads it from the raw response itself). -/
theorem check_response_characterization (response : PyVal) :
    (response.isDict = false →
      check_response response =
        .error (.typeError "Response data format is not dictionary")) ∧
    (response.isDict = true → response.hasKey "homeworks" = false →
      check_response response =
        .error (.responseFormatFailure
          "Please check homeworks existence in response")) ∧
    (response.hasKey "homeworks" = true →
      response.hasKey "current_date" = false →
      check_response response =
        .error (.responseFormatFailure
          "Please check current_date existence in response")) ∧
    (∀ hws, response.hasKey "current_date" = true →
      response.pyGet "homeworks" = .list hws →
      check_response response = .ok hws) ∧
    (response.hasKey "homeworks" = true →
      response.hasKey "current_date" = true →
      (response.pyGet "homeworks").isList = false →
      check_response response =
        .error (.typeError "Response data format is not list")) := by
  refine ⟨?_, ?_, ?_, ?_, ?_⟩
  · intro h; simp [check_response, h]
  · intro h1 h2; simp [check_response, h1, h2]
  · intro h1 h2; simp [check_response, hasKey_isDict _ _ h1, h1, h2]
  · intro hws h1 h2
    cases response with
    | dict kvs =>
        simp only [PyVal.pyGet] at h2
        simp only [PyVal.hasKey] at h1
        cases hl : lookupKey kvs "homeworks" with
        | none => rw [hl] at h2; simp at h2
        | some v =>
            rw [hl] at h2
            simp only [Option.getD] at h2
            subst h2
            simp [check_response, PyVal.isDict, PyVal.hasKey, PyVal.pyGet,
              hl, h1]
    | none => simp [PyVal.pyGet] at h2
    | bool b => simp [PyVal.pyGet] at h2
    | int n => simp [PyVal.pyGet] at h2
    | str s => simp [PyVal.pyGet] at h2
    | list l => simp [PyVal.pyGet] at h2
  · intro h1 h2 h3
    cases response with
    | dict kvs =>
        simp only [PyVal.hasKey] at h1 h2
        cases hl : lookupKey kvs "homeworks" with
        | none => rw [hl] at h1; simp at h1
        | some v =>
            simp only [PyVal.pyGet, hl, Option.getD] at h3
            simp only [check_response, PyVal.isDict, PyVal.hasKey,
              PyVal.pyGet, hl, h1, h2, Option.getD]
            cases v <;> simp_all [PyVal.isList]
    | none => simp [PyVal.hasKey] at h1
    | bool b => simp [PyVal.hasKey] at h1
    | int n => simp [PyVal.hasKey] at h1
    | str s => simp [PyVal.hasKey] at h1
    | list l => simp [PyVal.hasKey] at h1

/-- Witness for C5 (amended): evaluation at a non-dict response and at a
well-formed response with one record. -/
theorem check_response_characterization_witness :
    (PyVal.str "x").isDict = false ∧
    check_response (.str "x") =
      .error (.typeError "Response data format is not dictionary") ∧
    check_response
        (.dict [("homeworks", .list [.int 1]), ("current_date", .int 9)]) =
      .ok [.int 1] :=
  ⟨by decide, (check_response_characterization _).1 (by decide),
    (check_response_characterization _).2.2.2.1 [.int 1] (by decide) rfl⟩

/-! ### C4 — missing response keys fail quietly -/

/-- Claim C4: a response (a dict) lacking the `homeworks` key, or lacking
the `current_date` key, fails validation with FormatError and the cycle
triggers no dispatch: `step` invokes `send_message` with nothing and leaves
the whole state (stored report and cursor) unchanged. -/
theorem missing_keys_validation_quiet (st : BotState) (resp : PyVal)
    (sendOk : Bool)
    (hmiss : (resp.isDict = true ∧ resp.hasKey "homeworks" = false) ∨
             (resp.hasKey "homeworks" = true ∧
               resp.hasKey "current_date" = false)) :
    (∃ m, check_response resp = .error (.responseFormatFailure m)) ∧
    step st (.ok resp) sendOk = (st, Option.none) := by
  have hc : ∃ m, check_response resp = .error (.responseFormatFailure m) := by
    rcases hmiss with ⟨hd, hh⟩ | ⟨hh, hcd⟩
    · exact ⟨"Please check homeworks existence in response",
        by simp [check_response, hd, hh]⟩
    · exact ⟨"Please check current_date existence in response",
        by simp [check_response, hasKey_isDict _ _ hh, hh, hcd]⟩
  obtain ⟨m, hm⟩ := hc
  refine ⟨⟨m, hm⟩, ?_⟩
  simp [step, hm, handleError, PyError.isFormatFailure]

/-- Witness for C4: a response with only `current_date` is rejected quietly
and the state is untouched. -/
theorem missing_keys_validation_quiet_witness :
    ((PyVal.dict [("current_date", .int 1000)]).isDict = true ∧
      (PyVal.dict [("current_date", .int 1000)]).hasKey "homeworks" = false) ∧
    (∃ m, check_response (.dict [("current_date", .int 1000)]) =
        .error (.responseFormatFailure m)) ∧
    step initState (.ok (.dict [("current_date", .int 1000)])) true =
      (initState, Option.none) :=
  ⟨⟨by decide, by decide⟩,
    missing_keys_validation_quiet initState _ true (Or.inl ⟨by decide, by decide⟩)⟩

/-! ### C7 — parse_status is pure and deterministic -/

/-- Claim C7: `parse_status` is pure and deterministic — the same record
always yields the identical result, and the result depends only on the
record's `status` and `homework_name` entries. -/
theorem parse_status_pure (h : PyVal) (kvs1 kvs2 : List (String × PyVal))
    (hs : lookupKey kvs1 "status" = lookupKey kvs2 "status")
    (hn : lookupKey kvs1 "homework_name" = lookupKey kvs2 "homework_name") :
    parse_status h = parse_status h ∧
    parse_status (.dict kvs1) = parse_status (.dict kvs2) :=
  ⟨rfl, by simp only [parse_status, hs, hn]⟩

/-- Witness for C7: two records agreeing on `status` and `homework_name`
but differing elsewhere get the same message. -/
theorem parse_status_pure_witness :
    lookupKey [("status", PyVal.str "approved"), ("homework_name", PyVal.str "X"),
        ("extra", PyVal.int 1)] "status" =
      lookupKey [("homework_name", PyVal.str "X"),
        ("status", PyVal.str "approved")] "status" ∧
    lookupKey [("status", PyVal.str "approved"), ("homework_name", PyVal.str "X"),
        ("extra", PyVal.int 1)] "homework_name" =
      lookupKey [("homework_name", PyVal.str "X"),
        ("status", PyVal.str "approved")] "homework_name" ∧
    parse_status (.dict [("status", PyVal.str "approved"),
        ("homework_name", PyVal.str "X"), ("extra", PyVal.int 1)]) =
      parse_status (.dict [("homework_name", PyVal.str "X"),
        ("status", PyVal.str "approved")]) :=
  ⟨by decide, by decide,
    (parse_status_pure (.dict []) _ _ (by decide) (by decide)).2⟩

/-! ### C8 — get_api_answer error classification -/

/-- Claim C8: `get_api_answer` fails with NetworkError (`ConnectionError`)
on any transport-level failure, fails with EndpointError exactly when the
HTTP status code is not `http.HTTPStatus.OK`, the error carrying the status
code, reason phrase and raw body, and on an OK status returns the decoded
JSON body (a single attempt — the function performs no retry). -/
theorem get_api_answer_characterization (token : String) (timestamp : PyVal)
    (transport : Except String HttpResponse) :
    (∀ err, transport = .error err →
      get_api_answer token timestamp transport =
        .error (.connectionError (connectionErrorMsg token timestamp))) ∧
    (∀ r, transport = .ok r → r.status_code ≠ HTTPStatus_OK →
      get_api_answer token timestamp transport =
        .error (.endpointFailure (endpointFailureMsg r)) ∧
      endpointFailureMsg r =
        "Please check why API response failed = " ++
          "status_code:" ++ toString r.status_code ++ ", " ++
          "reason:" ++ r.reason ++ ", " ++
          "text: " ++ r.text) ∧
    (∀ r, transport = .ok r → r.status_code = HTTPStatus_OK →
      get_api_answer token timestamp transport = .ok r.json) := by
  refine ⟨?_, ?_, ?_⟩
  · rintro err rfl; rfl
  · rintro r rfl h; exact ⟨by simp [get_api_answer, h], rfl⟩
  · rintro r rfl h; simp [get_api_answer, h]

/-- Witness for C8: an HTTP 500 yields EndpointError with the diagnostic
message; a transport failure yields ConnectionError. -/
theorem get_api_answer_characterization_witness :
    ((500 : Nat) ≠ HTTPStatus_OK) ∧
    get_api_answer "t" (.int 0)
        (.ok ⟨500, "Internal Server Error", "boom", .none⟩) =
      .error (.endpointFailure
        "Please check why API response failed = status_code:500, reason:Internal Server Error, text: boom") ∧
    get_api_answer "t" (.int 0) (.error "timeout") =
      .error (.connectionError (connectionErrorMsg "t" (.int 0))) :=
  ⟨by decide,
    ((get_api_answer_characterization "t" (.int 0) _).2.1 _ rfl (by decide)).1,
    (get_api_answer_characterization "t" (.int 0) _).1 "timeout" rfl⟩

/-! ### C9 — status check precedes name check -/

/-- Claim C9: in `parse_status` the status check precedes the name check —
a record whose status is outside the verdict table fails with
`WrongStatusInResponse` regardless of whether `homework_name` is present,
and a `ResponseFormatFailure` can only come from a record whose status is
in the table and whose `homework_name` key is absent. -/
theorem parse_status_status_before_name (kvs : List (String × PyVal)) :
    (verdictOf ((lookupKey kvs "status").getD PyVal.none) = Option.none →
      parse_status (.dict kvs) =
        .error (.wrongStatusInResponse
          (wrongStatusMsg ((lookupKey kvs "status").getD PyVal.none)))) ∧
    (∀ s, parse_status (.dict kvs) = .error (.responseFormatFailure s) →
      (∃ v, verdictOf ((lookupKey kvs "status").getD PyVal.none) =
        Option.some v) ∧
      lookupKey kvs "homework_name" = Option.none) := by
  constructor
  · intro h; simp [parse_status, h]
  · intro s h
    simp only [parse_status] at h
    cases hv : verdictOf ((lookupKey kvs "status").getD PyVal.none) with
    | none => rw [hv] at h; simp at h
    | some v =>
        rw [hv] at h
        cases hn : lookupKey kvs "homework_name" with
        | none => exact ⟨⟨v, rfl⟩, rfl⟩
        | some nm => rw [hn] at h; simp at h

/-- Witness for C9: a record with an out-of-table status and no
`homework_name` at all fails with the unknown-status error, not the
missing-name error. -/
theorem parse_status_status_before_name_witness :
    verdictOf ((lookupKey [("status", PyVal.str "archived")] "status").getD
      PyVal.none) = Option.none ∧
    parse_status (.dict [("status", PyVal.str "archived")]) =
      .error (.wrongStatusInResponse
        (wrongStatusMsg ((lookupKey [("status", PyVal.str "archived")]
          "status").getD PyVal.none))) :=
  ⟨by decide, (parse_status_status_before_name _).1 (by decide)⟩

/-! ### C6 — unknown status handling -/

/-- Claim C6: a record whose status is not a verdict-table key makes
`parse_status` fail with `WrongStatusInResponse` carrying the offending
code; a record with a table status and a name yields the message embedding
name and verdict; and in the orchestrator an unknown status yields a
dispatched error report (when it differs from the stored report) with the
cursor unchanged. -/
theorem parse_status_unknown_status (kvs : List (String × PyVal)) :
    (verdictOf ((lookupKey kvs "status").getD PyVal.none) = Option.none →
      parse_status (.dict kvs) =
        .error (.wrongStatusInResponse
          (wrongStatusMsg ((lookupKey kvs "status").getD PyVal.none)))) ∧
    (∀ verdict nameVal,
      verdictOf ((lookupKey kvs "status").getD PyVal.none) =
        Option.some verdict →
      lookupKey kvs "homework_name" = Option.some nameVal →
      parse_status (.dict kvs) = .ok (statusChangedMsg nameVal verdict)) ∧
    (∀ (st : BotState) (resp hw : PyVal) (t : List PyVal) (w : String),
      check_response resp = .ok (hw :: t) →
      parse_status hw = .error (.wrongStatusInResponse w) →
      ({ homework_name := PyVal.list (hw :: t),
         message_output := cycleFailureMsg (.wrongStatusInResponse w) } :
          Report) ≠ st.prev_report →
      step st (.ok resp) true =
        ({ st with
            current_report :=
              { homework_name := PyVal.list (hw :: t),
                message_output := cycleFailureMsg (.wrongStatusInResponse w) },
            prev_report :=
              { homework_name := PyVal.list (hw :: t),
                message_output :=
                  cycleFailureMsg (.wrongStatusInResponse w) } },
         Option.some (cycleFailureMsg (.wrongStatusInResponse w)))) := by
  refine ⟨?_, ?_, ?_⟩
  · intro h; simp [parse_status, h]
  · intro verdict nameVal hv hn; simp [parse_status, hv, hn]
  · intro st resp hw t w hc hp hne
    simp only [step, hc, hp, handleError, PyError.isFormatFailure,
      Bool.false_eq_true, if_false]
    rw [handleGenericError_eq]
    rw [if_neg hne, if_pos rfl]

/-- Witness for C6: an `archived` record is dispatched as an error report
from the initial state, with the cursor left at zero. -/
theorem parse_status_unknown_status_witness :
    check_response (.dict [("homeworks",
        .list [.dict [("status", .str "archived"), ("homework_name", .str "X")]]),
        ("current_date", .int 77)]) =
      .ok [.dict [("status", .str "archived"), ("homework_name", .str "X")]] ∧
    parse_status (.dict [("status", .str "archived"), ("homework_name", .str "X")]) =
      .error (.wrongStatusInResponse (wrongStatusMsg (.str "archived"))) ∧
    step initState
        (.ok (.dict [("homeworks",
          .list [.dict [("status", .str "archived"), ("homework_name", .str "X")]]),
          ("current_date", .int 77)])) true =
      ({ initState with
          current_report :=
            { homework_name :=
                PyVal.list [.dict [("status", .str "archived"),
                  ("homework_name", .str "X")]],
              message_output :=
                cycleFailureMsg
                  (.wrongStatusInResponse (wrongStatusMsg (.str "archived"))) },
          prev_report :=
            { homework_name :=
                PyVal.list [.dict [("status", .str "archived"),
                  ("homework_name", .str "X")]],
              message_output :=
                cycleFailureMsg
                  (.wrongStatusInResponse (wrongStatusMsg (.str "archived"))) } },
       Option.some (cycleFailureMsg
         (.wrongStatusInResponse (wrongStatusMsg (.str "archived"))))) :=
  ⟨by decide, by decide,
    (parse_status_unknown_status []).2.2 initState _ _ [] _
      (by decide) (by decide) (by decide)⟩

/-! ### C3 — FormatError from interpretation is NOT user-facing -/

/-- Claim C3, counterexample: a record lacking `homework_name` makes
`parse_status` raise `ResponseFormatFailure`, yet the cycle dispatches
nothing (the `except ResponseFormatFailure` clause of `main` catches it
quietly), even from the initial state where the would-be error report
differs from the stored report and the channel would succeed. -/
theorem interpret_format_error_not_dispatched :
    parse_status (.dict [("status", PyVal.str "approved")]) =
      .error (.responseFormatFailure
        "Please validate homework_name exist in response") ∧
    (step initState
        (.ok (.dict [("homeworks", .list [.dict [("status", PyVal.str "approved")]]),
          ("current_date", .int 1000)])) true).2 = Option.none ∧
    (step initState
        (.ok (.dict [("homeworks", .list [.dict [("status", PyVal.str "approved")]]),
          ("current_date", .int 1000)])) true).1.prev_report =
      initState.prev_report ∧
    (step initState
        (.ok (.dict [("homeworks", .list [.dict [("status", PyVal.str "approved")]]),
          ("current_date", .int 1000)])) true).1.timestamp =
      initState.timestamp := by
  refine ⟨by decide, by decide, by decide, by decide⟩

/-- Claim C3 (amended): a `ResponseFormatFailure` raised by `parse_status`
during interpretation is caught by the same quiet `except` clause as a
validation FormatError — logged only, never routed to compare-and-dispatch;
the cycle dispatches nothing and leaves `prev_report` and the cursor
unchanged (only `current_report.homework_name`, already mutated before the
raise, keeps the newly validated list). -/
theorem interpret_format_error_quiet (st : BotState) (resp hw : PyVal)
    (t : List PyVal) (s : String) (sendOk : Bool)
    (hc : check_response resp = .ok (hw :: t))
    (hp : parse_status hw = .error (.responseFormatFailure s)) :
    step st (.ok resp) sendOk =
      ({ st with current_report :=
          { st.current_report with homework_name := .list (hw :: t) } },
       Option.none) := by
  simp [step, hc, hp, handleError, PyError.isFormatFailure]

/-- Witness for C3 (amended): the missing-name record leaves the state
unchanged except for the recorded homeworks list. -/
theorem interpret_format_error_quiet_witness :
    check_response (.dict [("homeworks", .list [.dict [("status", PyVal.str "approved")]]),
        ("current_date", .int 1000)]) =
      .ok [.dict [("status", PyVal.str "approved")]] ∧
    parse_status (.dict [("status", PyVal.str "approved")]) =
      .error (.responseFormatFailure
        "Please validate homework_name exist in response") ∧
    step initState
        (.ok (.dict [("homeworks", .list [.dict [("status", PyVal.str "approved")]]),
          ("current_date", .int 1000)])) true =
      ({ initState with current_report :=
          { initState.current_report with
              homework_name := .list [.dict [("status", PyVal.str "approved")]] } },
       Option.none) :=
  ⟨by decide, by decide,
    interpret_format_error_quiet initState
      (.dict [("homeworks", .list [.dict [("status", PyVal.str "approved")]]),
        ("current_date", .int 1000)])
      (.dict [("status", PyVal.str "approved")]) []
      "Please validate homework_name exist in response" true
      (by decide) (by decide)⟩

/-! ### More step helper lemmas -/

/-- Characterization of the dispatch tail when a message was sent. -/
theorem dispatchTailSuccess_some (st st1 : BotState) (resp : PyVal)
    (cr : Report) (sendOk : Bool) (m : String)
    (h : dispatchTailSuccess st resp cr sendOk = (st1, Option.some m)) :
    m = cr.message_output ∧ cr ≠ st.prev_report ∧
    st1.current_report = cr ∧
    (sendOk = true →
      st1.prev_report = cr ∧ st1.timestamp = resp.pyGet "current_date") ∧
    (sendOk = false →
      st1.prev_report = st.prev_report ∧ st1.timestamp = st.timestamp) := by
  unfold dispatchTailSuccess at h
  split_ifs at h with h1 h2
  · simp at h
  · injection h with ha hb
    injection hb with hb
    subst ha
    subst h2
    exact ⟨hb.symm, h1, rfl, fun _ => ⟨rfl, rfl⟩, fun hf => by simp at hf⟩
  · injection h with ha hb
    injection hb with hb
    subst ha
    refine ⟨hb.symm, h1, rfl, fun ht => ?_, fun _ => ⟨rfl, rfl⟩⟩
    exact absurd ht h2

/-- The general characterization of the dispatch tail. -/
theorem dispatchTailSuccess_cases (st st1 : BotState) (resp : PyVal)
    (cr : Report) (sendOk : Bool) (ev : Option String)
    (h : dispatchTailSuccess st resp cr sendOk = (st1, ev)) :
    st1.current_report = cr ∧
    (st1.timestamp = st.timestamp ∨
      (sendOk = true ∧ ev = Option.some cr.message_output ∧
        st1.timestamp = resp.pyGet "current_date")) ∧
    (st1.prev_report = st.prev_report ∨
      (sendOk = true ∧ ev = Option.some st1.prev_report.message_output ∧
        st1.prev_report = st1.current_report)) := by
  unfold dispatchTailSuccess at h
  split_ifs at h with h1 h2
  · injection h with ha hb
    subst ha; subst hb
    exact ⟨rfl, Or.inl rfl, Or.inl rfl⟩
  · injection h with ha hb
    subst ha; subst hb; subst h2
    exact ⟨rfl, Or.inr ⟨rfl, rfl, rfl⟩, Or.inr ⟨rfl, rfl, rfl⟩⟩
  · injection h with ha hb
    subst ha; subst hb
    exact ⟨rfl, Or.inl rfl, Or.inl rfl⟩

/-- The general characterization of the exception handlers: they never
touch the cursor, and advance the stored report only after a successful
dispatch. -/
theorem handleError_cases (st st1 : BotState) (cr : Report) (e : PyError)
    (sendOk : Bool) (ev : Option String)
    (h : handleError st cr e sendOk = (st1, ev)) :
    st1.timestamp = st.timestamp ∧
    (st1.prev_report = st.prev_report ∨
      (sendOk = true ∧ ev = Option.some st1.prev_report.message_output ∧
        st1.prev_report = st1.current_report)) := by
  unfold handleError at h
  split_ifs at h with hf
  · injection h with ha hb
    subst ha
    exact ⟨rfl, Or.inl rfl⟩
  · rw [handleGenericError_eq] at h
    split_ifs at h with h1 h2
    · injection h with ha hb
      subst ha
      exact ⟨rfl, Or.inl rfl⟩
    · injection h with ha hb
      subst ha; subst hb; subst h2
      exact ⟨rfl, Or.inr ⟨rfl, rfl, rfl⟩⟩
    · injection h with ha hb
      subst ha
      exact ⟨rfl, Or.inl rfl⟩

/-- Characterization of the exception handlers when a message was sent. -/
theorem handleError_some (st st1 : BotState) (cr : Report) (e : PyError)
    (sendOk : Bool) (m : String)
    (h : handleError st cr e sendOk = (st1, Option.some m)) :
    e.isFormatFailure = false ∧ m = cycleFailureMsg e ∧
    st1.timestamp = st.timestamp ∧
    st1.current_report = { cr with message_output := cycleFailureMsg e } ∧
    (sendOk = true →
      st1.prev_report = { cr with message_output := cycleFailureMsg e }) := by
  unfold handleError at h
  split_ifs at h with hf
  · simp at h
  · rw [handleGenericError_eq] at h
    split_ifs at h with h1 h2
    · simp at h
    · injection h with ha hb
      injection hb with hb
      subst ha
      exact ⟨by simp [hf], hb.symm, rfl, rfl, fun _ => rfl⟩
    · injection h with ha hb
      injection hb with hb
      subst ha
      exact ⟨by simp [hf], hb.symm, rfl, rfl, fun ht => absurd ht h2⟩

/-! ### Concrete fixtures for witnesses -/

/-- A concrete approved record named X. -/
def hwX : PyVal :=
  .dict [("status", .str "approved"), ("homework_name", .str "X")]

/-- A concrete well-formed response holding `hwX`. -/
def respX : PyVal :=
  .dict [("homeworks", .list [hwX]), ("current_date", .int 1000)]

/-- The message `parse_status` produces for `hwX`. -/
def msgX : String :=
  "Изменился статус проверки работы \"X\". Работа проверена: ревьюеру всё понравилось. Ура!"

/-- The state after the first successful cycle on `respX`. -/
def stX : BotState :=
  { timestamp := .int 1000,
    current_report := { homework_name := .list [hwX], message_output := msgX },
    prev_report := { homework_name := .list [hwX], message_output := msgX } }

/-! ### C10 — the dedup key carries the whole homeworks list -/

/-- Claim C10: the dedup key is the report pair (`homework_name`,
`message_output`) where `homework_name` holds the entire validated
homeworks list; two consecutive successful cycles sharing the first record
(hence the same message) but differing in the rest of the list compare
unequal, so the dispatcher is invoked again. -/
theorem dedup_key_whole_list (st st1 : BotState) (resp1 resp2 hw : PyVal)
    (t1 t2 : List PyVal) (msg m : String) (sendOk2 : Bool)
    (hc1 : check_response resp1 = .ok (hw :: t1))
    (hc2 : check_response resp2 = .ok (hw :: t2))
    (hp : parse_status hw = .ok msg)
    (hne : t1 ≠ t2)
    (h1 : step st (.ok resp1) true = (st1, Option.some m)) :
    m = msg ∧
    st1.prev_report =
      { homework_name := PyVal.list (hw :: t1), message_output := msg } ∧
    (step st1 (.ok resp2) sendOk2).2 = Option.some msg := by
  simp only [step, hc1, hp] at h1
  obtain ⟨hm, hnep, hcur, hsend, -⟩ := dispatchTailSuccess_some _ _ _ _ _ _ h1
  obtain ⟨hprev, hts⟩ := hsend rfl
  refine ⟨hm, hprev, ?_⟩
  simp only [step, hc2, hp]
  unfold dispatchTailSuccess
  rw [if_neg ?hne2]
  case hne2 =>
    rw [hprev]
    intro hcontra
    have hname := congrArg Report.homework_name hcontra
    have hlist : PyVal.list (hw :: t2) = PyVal.list (hw :: t1) := hname
    exact hne (List.tail_eq_of_cons_eq (PyVal.list.inj hlist)).symm
  cases sendOk2 <;> simp

/-- A concrete rejected record named Y. -/
def hwY : PyVal :=
  .dict [("status", .str "rejected"), ("homework_name", .str "Y")]

/-- The state after dispatching for the two-record list `[hwX, hwY]`. -/
def stXY : BotState :=
  { timestamp := .int 1,
    current_report := { homework_name := .list [hwX, hwY],
                        message_output := msgX },
    prev_report := { homework_name := .list [hwX, hwY],
                     message_output := msgX } }

/-- Witness for C10: after dispatching for a two-record list, a response
with only the shared first record triggers a second dispatch of the very
same message. -/
theorem dedup_key_whole_list_witness :
    check_response (.dict [("homeworks", .list [hwX, hwY]),
        ("current_date", .int 1)]) = .ok [hwX, hwY] ∧
    check_response (.dict [("homeworks", .list [hwX]),
        ("current_date", .int 2)]) = .ok [hwX] ∧
    parse_status hwX = .ok msgX ∧
    step initState (.ok (.dict [("homeworks", .list [hwX, hwY]),
        ("current_date", .int 1)])) true = (stXY, Option.some msgX) ∧
    (step stXY (.ok (.dict [("homeworks", .list [hwX]),
        ("current_date", .int 2)])) true).2 = Option.some msgX :=
  ⟨by decide, by decide, by decide, by decide,
    (dedup_key_whole_list initState stXY
      (.dict [("homeworks", .list [hwX, hwY]), ("current_date", .int 1)])
      (.dict [("homeworks", .list [hwX]), ("current_date", .int 2)])
      hwX [hwY] [] msgX msgX true
      (by decide) (by decide) (by decide) (by decide) (by decide)).2.2⟩

/-! ### C1 — at-most-once dispatch for repeated identical cycles -/

/-- After an error cycle that dispatched its error report, running the
handler again on the same exception dispatches nothing and fixes the
state. -/
theorem handleError_fixed (st st1 : BotState) (cr : Report) (e : PyError)
    (m : String)
    (h : handleError st cr e true = (st1, Option.some m)) :
    handleError st1 st1.current_report e true = (st1, Option.none) := by
  obtain ⟨hf, hm, hts, hcur, hprev⟩ := handleError_some _ _ _ _ _ _ h
  have hp := hprev rfl
  have hX : ({ st1.current_report with
      message_output := cycleFailureMsg e } : Report) = st1.current_report := by
    rw [hcur]
  unfold handleError
  rw [if_neg (by simp [hf]), handleGenericError_eq,
    if_pos (by rw [hX, hp, hcur]), hX]

/-- After a cycle whose dispatch tail sent a message, running the tail
again on the same computed report dispatches nothing and fixes the
state. -/
theorem dispatchTail_fixed (st st1 : BotState) (resp resp2 : PyVal)
    (cr : Report) (m : String)
    (h : dispatchTailSuccess st resp cr true = (st1, Option.some m)) :
    dispatchTailSuccess st1 resp2 cr true = (st1, Option.none) := by
  obtain ⟨hm, hnep, hcur, hsend, -⟩ := dispatchTailSuccess_some _ _ _ _ _ _ h
  obtain ⟨hprev, -⟩ := hsend rfl
  unfold dispatchTailSuccess
  rw [if_pos (by rw [hprev]), ← hcur]

/-- A cycle that dispatched a message leaves the loop in a state that the
same fetch outcome can never make dispatch again: the state is a fixed
point of `step` for that input. -/
theorem step_fixed (st st1 : BotState) (f : Except PyError PyVal) (m : String)
    (h : step st f true = (st1, Option.some m)) :
    step st1 f true = (st1, Option.none) := by
  cases f with
  | error e =>
      simp only [step] at h ⊢
      exact handleError_fixed st st1 st.current_report e m h
  | ok resp =>
      cases hc : check_response resp with
      | error e =>
          simp only [step, hc] at h ⊢
          exact handleError_fixed st st1 st.current_report e m h
      | ok hws =>
          cases hws with
          | nil =>
              simp only [step, hc] at h ⊢
              exact dispatchTail_fixed st st1 resp resp _ m h
          | cons hw t =>
              cases hp : parse_status hw with
              | ok msg =>
                  simp only [step, hc, hp] at h ⊢
                  exact dispatchTail_fixed st st1 resp resp _ m h
              | error e =>
                  simp only [step, hc, hp] at h ⊢
                  obtain ⟨hf, hm, hts, hcur, hprev⟩ :=
                    handleError_some _ _ _ _ _ _ h
                  have hX : ({ st1.current_report with
                      homework_name := PyVal.list (hw :: t) } : Report) =
                      st1.current_report := by rw [hcur]
                  rw [hX]
                  exact handleError_fixed st st1 _ e m h

/-- Iterating from a fixed point of `step` never dispatches. -/
theorem runSame_fixed (f : Except PyError PyVal) (st1 : BotState)
    (hfix : step st1 f true = (st1, Option.none)) :
    ∀ n, runSame f true n st1 = (st1, []) := by
  intro n
  induction n with
  | zero => rfl
  | succ k ih => simp [runSame, hfix, ih]

/-- Claim C1: over any run of consecutive cycles with the identical fetch
outcome (successful or erroneous) and a succeeding channel, if the first
cycle invokes the dispatcher (with message `m`) then no later cycle invokes
it again while the computed report keeps comparing equal to the stored one:
the whole run dispatches exactly `[m]`. -/
theorem dispatcher_at_most_once (st st1 : BotState) (f : Except PyError PyVal)
    (m : String) (n : Nat)
    (h : step st f true = (st1, Option.some m)) :
    runSame f true n st1 = (st1, []) ∧
    runSame f true (n + 1) st = (st1, [m]) := by
  have hfix := step_fixed st st1 f m h
  have hr := runSame_fixed f st1 hfix
  exact ⟨hr n, by simp [runSame, h, hr n]⟩

/-- Witness for C1: three cycles on the same successful response dispatch
exactly one message. -/
theorem dispatcher_at_most_once_witness :
    step initState (.ok respX) true = (stX, Option.some msgX) ∧
    runSame (.ok respX) true 2 stX = (stX, []) ∧
    runSame (.ok respX) true 3 initState = (stX, [msgX]) :=
  ⟨by decide,
    (dispatcher_at_most_once initState stX (.ok respX) msgX 2 (by decide)).1,
    (dispatcher_at_most_once initState stX (.ok respX) msgX 2 (by decide)).2⟩

/-! ### C2 — report and cursor advancement conditions -/

/-- Claim C2: `prev_report` is replaced only in a cycle where the
dispatcher was invoked and `send_message` returned true (in which case it
becomes the freshly computed report), and the cursor is advanced only in a
cycle where fetch, validation, interpret-or-empty and dispatch all
succeeded, in which case it is set to the response's `current_date`; every
cycle that raises (fetch, validation or interpretation error) — even one
that successfully dispatches an error report — leaves the cursor
unchanged. -/
theorem state_advance_conditions (st st' : BotState)
    (f : Except PyError PyVal) (sendOk : Bool) (ev : Option String)
    (h : step st f sendOk = (st', ev)) :
    (st'.prev_report ≠ st.prev_report →
      sendOk = true ∧ ev = Option.some st'.prev_report.message_output ∧
      st'.prev_report = st'.current_report) ∧
    (st'.timestamp ≠ st.timestamp →
      sendOk = true ∧ ∃ resp hws, f = .ok resp ∧
        check_response resp = .ok hws ∧
        (hws = [] ∨ ∃ hw t mm, hws = hw :: t ∧ parse_status hw = .ok mm) ∧
        ev = Option.some st'.current_report.message_output ∧
        st'.timestamp = resp.pyGet "current_date") ∧
    (∀ e, (f = .error e ∨
        (∃ resp, f = .ok resp ∧ check_response resp = .error e) ∨
        (∃ resp hw t, f = .ok resp ∧ check_response resp = .ok (hw :: t) ∧
          parse_status hw = .error e)) →
      st'.timestamp = st.timestamp) := by
  cases f with
  | error e0 =>
      simp only [step] at h
      obtain ⟨hts, hprev⟩ := handleError_cases _ _ _ _ _ _ h
      refine ⟨?_, fun hne => absurd hts hne, fun e hd => hts⟩
      intro hne
      rcases hprev with h' | hgood
      · exact absurd h' hne
      · exact hgood
  | ok resp =>
      cases hc : check_response resp with
      | error e0 =>
          simp only [step, hc] at h
          obtain ⟨hts, hprev⟩ := handleError_cases _ _ _ _ _ _ h
          refine ⟨?_, fun hne => absurd hts hne, fun e hd => hts⟩
          intro hne
          rcases hprev with h' | hgood
          · exact absurd h' hne
          · exact hgood
      | ok hws =>
          cases hws with
          | nil =>
              simp only [step, hc] at h
              obtain ⟨hcur, htsd, hprev⟩ := dispatchTailSuccess_cases _ _ _ _ _ _ h
              refine ⟨?_, ?_, ?_⟩
              · intro hne
                rcases hprev with h' | hgood
                · exact absurd h' hne
                · exact hgood
              · intro hne
                rcases htsd with h' | ⟨hs, he, hT⟩
                · exact absurd h' hne
                · exact ⟨hs, resp, [], rfl, hc, Or.inl rfl,
                    by rw [he, hcur], hT⟩
              · rintro e (hfe | ⟨resp2, hre, hce⟩ | ⟨resp2, hw, t, hre, hce, hpe⟩)
                · exact absurd hfe (by simp)
                · injection hre with hre
                  subst hre
                  rw [hc] at hce
                  exact absurd hce (by simp)
                · injection hre with hre
                  subst hre
                  rw [hc] at hce
                  exact absurd hce (by simp)
          | cons hw t =>
              cases hp : parse_status hw with
              | error e0 =>
                  simp only [step, hc, hp] at h
                  obtain ⟨hts, hprev⟩ := handleError_cases _ _ _ _ _ _ h
                  refine ⟨?_, fun hne => absurd hts hne, fun e hd => hts⟩
                  intro hne
                  rcases hprev with h' | hgood
                  · exact absurd h' hne
                  · exact hgood
              | ok msg =>
                  simp only [step, hc, hp] at h
                  obtain ⟨hcur, htsd, hprev⟩ := dispatchTailSuccess_cases _ _ _ _ _ _ h
                  refine ⟨?_, ?_, ?_⟩
                  · intro hne
                    rcases hprev with h' | hgood
                    · exact absurd h' hne
                    · exact hgood
                  · intro hne
                    rcases htsd with h' | ⟨hs, he, hT⟩
                    · exact absurd h' hne
                    · exact ⟨hs, resp, hw :: t, rfl, hc,
                        Or.inr ⟨hw, t, msg, rfl, hp⟩, by rw [he, hcur], hT⟩
                  · rintro e (hfe | ⟨resp2, hre, hce⟩ | ⟨resp2, hw2, t2, hre, hce, hpe⟩)
                    · exact absurd hfe (by simp)
                    · injection hre with hre
                      subst hre
                      rw [hc] at hce
                      exact absurd hce (by simp)
                    · injection hre with hre
                      subst hre
                      rw [hc] at hce
                      injection hce with hce
                      have hhw : hw = hw2 := List.head_eq_of_cons_eq hce
                      rw [← hhw, hp] at hpe
                      exact absurd hpe (by simp)

/-- The report `main` holds after a dispatched connection-error cycle with
message text `x`. -/
def errReportX : Report :=
  { homework_name := .str "",
    message_output := "Сбой в работе программы: x" }

/-- The state after that dispatched error cycle from the initial state. -/
def stErrX : BotState :=
  { timestamp := .int 0, current_report := errReportX,
    prev_report := errReportX }

/-- Witness for C2: a dispatched connection-error cycle replaces the
stored report but leaves the cursor at its initial value. -/
theorem state_advance_conditions_witness :
    step initState (.error (.connectionError "x")) true =
      (stErrX, Option.some "Сбой в работе программы: x") ∧
    stErrX.timestamp = initState.timestamp :=
  ⟨by decide,
    (state_advance_conditions initState stErrX (.error (.connectionError "x"))
      true (Option.some "Сбой в работе программы: x") (by decide)).2.2
      (.connectionError "x") (Or.inl rfl)⟩
